import Mathlib

set_option maxHeartbeats 1000000
set_option maxRecDepth 8192

/-!
Shallow embedding of the rubric evaluator in `evaluate_agent.py`
(`class DataAnalystEvaluator`).

Modelling conventions:
* A decoded JSON value (the result of `response.json()`) is a `JValue`:
  Python `None`/`bool`/`int`/`float`/`str`/`list`/`dict`.
* Python `float` is modelled as an exact rational.  No claim under study
  depends on a comparison within binary-floating-point rounding distance
  of a decision boundary (the one tolerance test compares |0.9 - 0.485782|
  against 0.001, which is off by more than 0.41).
* The mutable accumulator `self.total_score` is threaded explicitly:
  each check method takes the accumulator and returns the pair
  (its boolean result, the new accumulator).
* Exceptions caught by the `try/except` blocks are modelled by total
  functions returning the caught-branch value (`False` / score 0):
  the only statements in the source that can raise are indexing
  (`result[i]`), `float(...)` coercion, attribute access on a non-string
  (`plot_data.startswith`), and `base64.b64decode`.
* Lean `String` contains only Unicode scalar values, so the
  `UnicodeEncodeError` path for lone surrogates is unreachable in the model.
* A decoded JSON `null` is Python `None`.  `test_api_response` returns the
  decoded body unchanged, and `run_evaluation` answers `None` with the
  fixed "API request failed" report (lines 178-185) before the structural
  gate, so `null` is the one decoded value that never reaches the gate.
-/

/-- A decoded JSON value as produced by Python's `json` module:
`None`, `bool`, `int`, `float`, `str`, `list` or `dict`. -/
inductive JValue where
  | null
  | bool (b : Bool)
  | int (n : Int)
  | float (q : ℚ)
  | str (s : String)
  | arr (elems : List JValue)
  | obj (fields : List (String × JValue))

/-- Python `repr` of a float, approximated by a digits-only rendering of
the exact rational.  Like CPython's shortest-roundtrip rendering it never
contains any letter of "titanic" (CPython can emit `e`, `inf`, `nan`,
digits, `.` and `-`; none contains the letter `t`), which is the only
property of it the evaluator consumes. -/
def py_float_repr (q : ℚ) : String :=
  if q.den = 1 then toString q.num ++ ".0"
  else toString q.num ++ "/" ++ toString q.den

mutual

/-- Python `repr` of a JSON-derived value, as far as the evaluator can
observe it (string escaping inside `repr` of a `str` is simplified to
plain quoting; the scoring logic only ever searches the result for the
letters of "titanic", which quoting cannot introduce or remove). -/
def py_repr : JValue → String
  | .null => "None"
  | .bool true => "True"
  | .bool false => "False"
  | .int n => toString n
  | .float q => py_float_repr q
  | .str s => "'" ++ s ++ "'"
  | .arr xs => "[" ++ py_repr_list xs ++ "]"
  | .obj kvs => "\x7b" ++ py_repr_obj kvs ++ "\x7d"

def py_repr_list : List JValue → String
  | [] => ""
  | [v] => py_repr v
  | v :: rest => py_repr v ++ ", " ++ py_repr_list rest

def py_repr_obj : List (String × JValue) → String
  | [] => ""
  | [(k, v)] => "'" ++ k ++ "': " ++ py_repr v
  | (k, v) :: rest => "'" ++ k ++ "': " ++ py_repr v ++ ", " ++ py_repr_obj rest

end

/-- Python `str(...)` of a JSON-derived value: the identity on strings,
`repr` on everything else (this is exactly CPython's behaviour for
`NoneType`, `bool`, `int`, `float`, `list`, `dict`). -/
def py_str : JValue → String
  | .str s => s
  | v => py_repr v

/-- Python `first_answer == 1` for a JSON-derived value: numeric types
(`int`, `float`, `bool`) compare numerically, every other type compares
unequal to the integer `1`. -/
def py_eq_one : JValue → Bool
  | .int n => n == 1
  | .float q => q == 1
  | .bool b => b
  | _ => false

/-- Substring containment (Python's `pat in s`), on character lists. -/
def contains_sub (pat : List Char) : List Char → Bool
  | [] => pat.isPrefixOf []
  | c :: rest => pat.isPrefixOf (c :: rest) || contains_sub pat rest

/-- Python `re.search(r'titanic', s, re.I)`: case-insensitive search for
the literal substring `titanic` (the pattern is letter-literal, so the
search succeeds iff the ASCII-lowercased haystack contains it). -/
def contains_titanic (s : String) : Bool :=
  contains_sub ("titanic".data) (s.data.map Char.toLower)

/-- Decimal value of a digit list. -/
def digits_val (l : List Char) : Nat :=
  l.foldl (fun a c => a * 10 + (c.toNat - 48)) 0

def pow10 (n : Nat) : ℚ := (10 : ℚ) ^ n

/-- Optional exponent suffix of a Python float literal (`e`/`E`, sign,
digits); anything left over after it makes the whole parse fail. -/
def parse_exp_part (mant : ℚ) (l : List Char) : Option ℚ :=
  match l with
  | [] => some mant
  | c :: r =>
    if c == 'e' || c == 'E' then
      let signAndRest : Bool × List Char :=
        match r with
        | '-' :: r2 => (true, r2)
        | '+' :: r2 => (false, r2)
        | _ => (false, r)
      let ds := signAndRest.2.takeWhile Char.isDigit
      let rest := signAndRest.2.dropWhile Char.isDigit
      if ds.isEmpty || !rest.isEmpty then none
      else
        let e := digits_val ds
        some (if signAndRest.1 then mant / pow10 e else mant * pow10 e)
    else none

/-- Unsigned part of a Python float literal: `digits`, `digits.digits`,
`digits.`, or `.digits`, with optional exponent. -/
def parse_float_body (l : List Char) : Option ℚ :=
  let ip := l.takeWhile Char.isDigit
  let r1 := l.dropWhile Char.isDigit
  match r1 with
  | '.' :: r2 =>
    let fp := r2.takeWhile Char.isDigit
    let r3 := r2.dropWhile Char.isDigit
    if ip.isEmpty && fp.isEmpty then none
    else parse_exp_part ((digits_val ip : ℚ) + (digits_val fp : ℚ) / pow10 fp.length) r3
  | _ =>
    if ip.isEmpty then none
    else parse_exp_part (digits_val ip : ℚ) r1

/-- Python `float(s)` on a string: strip whitespace, optional sign,
mantissa with optional fraction and exponent.  (`inf`/`nan` spellings and
digit-group underscores are not modelled; no scored behaviour in any
claim depends on string-to-float coercion at all.) -/
def parse_float (s : String) : Option ℚ :=
  let l := ((s.data.dropWhile Char.isWhitespace).reverse.dropWhile Char.isWhitespace).reverse
  let signAndBody : Bool × List Char :=
    match l with
    | '-' :: r => (true, r)
    | '+' :: r => (false, r)
    | _ => (false, l)
  match parse_float_body signAndBody.2 with
  | some q => some (if signAndBody.1 then -q else q)
  | none => none

/-- Python `float(x)` on a JSON-derived value; `none` models the raised
`TypeError`/`ValueError` that the caller catches. -/
def py_float : JValue → Option ℚ
  | .int n => some (n : ℚ)
  | .float q => some q
  | .bool b => some (if b then 1 else 0)
  | .str s => parse_float s
  | _ => none

/-- Python `abs` on a (modelled) float. -/
def py_abs (q : ℚ) : ℚ := if q < 0 then -q else q

/-- Membership of a character in the standard base64 alphabet
(`A`-`Z`, `a`-`z`, `0`-`9`, `+`, `/`), the characters CPython's
non-strict `binascii.a2b_base64` treats as data. -/
def is_b64_char (c : Char) : Bool :=
  let n := c.toNat
  (decide (65 ≤ n) && decide (n ≤ 90)) || (decide (97 ≤ n) && decide (n ≤ 122)) ||
  (decide (48 ≤ n) && decide (n ≤ 57)) || c == '+' || c == '/'

/-- Scanner state of CPython's non-strict `binascii.a2b_base64`:
`quad_pos` counts data characters modulo 4, `pads` counts padding
characters since the last data character, `done` records that enough
padding terminated the scan successfully. -/
structure B64State where
  quad_pos : Nat
  pads : Nat
  done : Bool

/-- One character step of CPython's non-strict `binascii.a2b_base64`
scanner: characters outside the alphabet are discarded; `=` terminates
the scan successfully once a quad holding at least two data characters
is completed by padding; data characters advance the quad position and
reset the padding count. -/
def b64_step (st : B64State) (c : Char) : B64State :=
  if st.done then st
  else if c == '=' then
    if decide (2 ≤ st.quad_pos) && decide (4 ≤ st.quad_pos + (st.pads + 1)) then
      { st with done := true }
    else { st with pads := st.pads + 1 }
  else if is_b64_char c then
    { quad_pos := (st.quad_pos + 1) % 4, pads := 0, done := false }
  else st

/-- Success predicate of Python `base64.b64decode(s)` on a `str` argument
with default (non-strict) validation: the argument must be pure ASCII
(otherwise the implicit `.encode('ascii')` raises), and after discarding
non-alphabet characters the scan must either be terminated by sufficient
padding or end on a quad boundary. -/
def b64decode_ok (payload : List Char) : Bool :=
  payload.all (fun c => decide (c.toNat ≤ 127)) &&
  (let final := payload.foldl b64_step ⟨0, 0, false⟩
   final.done || final.quad_pos == 0)

/-- Python `str.split(sep)` for a non-empty separator, on character
lists, with an explicit fuel argument (the fuel is always instantiated
with the length of the list, which suffices because each recursive call
consumes at least one character). -/
def split_on_aux (sep : List Char) : Nat → List Char → List (List Char)
  | _, [] => [[]]
  | 0, l => [l]
  | fuel + 1, c :: rest =>
    if sep.isPrefixOf (c :: rest) then
      [] :: split_on_aux sep fuel (List.drop sep.length (c :: rest))
    else
      match split_on_aux sep fuel rest with
      | [] => [[c]]
      | h :: t => (c :: h) :: t

/-- Python `l.split(sep)` (leftmost, non-overlapping occurrences). -/
def py_split (sep l : List Char) : List (List Char) :=
  split_on_aux sep l.length l

/-- The literal separator `'base64,'` used by `evaluate_plot`. -/
def marker : List Char := "base64,".data

/-- Python `'base64,' in plot_data` (line 131 and line 141 of the
source evaluate the same containment test). -/
def contains_marker (chars : List Char) : Bool :=
  contains_sub marker chars

/-- Python `plot_data.split('base64,')[1]` (line 142): the segment of
the string strictly between the first and the second occurrence of the
marker (or up to the end of the string when the marker occurs once).
The call site guards on the marker being present, so index 1 exists;
the default value is never used there. -/
def base64_part (chars : List Char) : List Char :=
  (py_split marker chars).getD 1 []

/-- Everything after the FIRST occurrence of `sep`, or `none` when `sep`
does not occur.  This is the quantity the specification's wording
describes ("the substring after the first occurrence of base64,"); it is
kept separate from `base64_part` precisely so the two can be compared. -/
def after_first (sep : List Char) : List Char → Option (List Char)
  | [] => if sep.isEmpty then some [] else none
  | c :: rest =>
    if sep.isPrefixOf (c :: rest) then some (List.drop sep.length (c :: rest))
    else after_first sep rest

/-- Byte length of the UTF-8 encoding of a string,
Python `len(plot_data.encode('utf-8'))` (line 135). -/
def utf8_len (chars : List Char) : Nat :=
  chars.foldl (fun n c => n + c.utf8Size) 0

/-- Plot sub-criterion 1 (line 127): `plot_data.startswith('data:image/')`. -/
def is_data_uri (chars : List Char) : Bool :=
  "data:image/".data.isPrefixOf chars

/-- Plot sub-criterion 3 (line 136): `size_bytes < 100000`, strict. -/
def size_ok (chars : List Char) : Bool :=
  decide (utf8_len chars < 100000)

/-- Plot sub-criterion 4 (lines 139-151): when the marker is present,
decode `split('base64,')[1]`; a raised decode error (or the absence of
the marker) yields `False`. -/
def can_decode (chars : List Char) : Bool :=
  if contains_marker chars then b64decode_ok (base64_part chars) else false

/-- The list `criteria_met = [is_data_uri, has_base64, size_ok,
can_decode]` of line 154. -/
def criteria_met (chars : List Char) : List Bool :=
  [is_data_uri chars, contains_marker chars, size_ok chars, can_decode chars]

/-- `points_earned = sum(criteria_met) * points_per_criterion` with
`points_per_criterion = 2` (lines 155-156). -/
def points_earned (chars : List Char) : Nat :=
  (criteria_met chars).countP id * 2

/-- The dictionary returned by `run_evaluation` (and, for the fetch-failure
and structure-failure paths, built inline there).  `response` is `none`
exactly on the paths whose dict literal lacks the `"response"` key. -/
structure Report where
  success : Bool
  score : Nat
  max_score : Nat
  percentage : ℚ
  details : String
  response : Option JValue

/-- Test 1 (lines 49-62): the structural gate.  `True` iff the decoded
response is a `list` of exactly 4 elements. -/
def evaluate_structure (result : JValue) : Bool :=
  match result with
  | .arr xs => xs.length == 4
  | _ => false

/-- Test 2 (lines 64-79): `result[0] == 1` awards 4 points.  The checks
are written over the element list of the submission (the runner only
calls them after the structural gate guarantees a list); the caught
`IndexError` for a too-short list is the `none` branch. -/
def evaluate_first_answer (total_score : Nat) (result : List JValue) : Bool × Nat :=
  match result.get? 0 with
  | some first_answer =>
    if py_eq_one first_answer then (true, total_score + 4) else (false, total_score)
  | none => (false, total_score)

/-- Test 3 (lines 81-96): `re.search(r'titanic', str(result[1]), re.I)`
awards 4 points. -/
def evaluate_second_answer (total_score : Nat) (result : List JValue) : Bool × Nat :=
  match result.get? 1 with
  | some second_answer =>
    if contains_titanic (py_str second_answer) then (true, total_score + 4)
    else (false, total_score)
  | none => (false, total_score)

/-- Test 4 (lines 98-117): `abs(float(result[2]) - 0.485782) <= 0.001`
awards 4 points; a failed `float(...)` coercion is the caught exception. -/
def evaluate_third_answer (total_score : Nat) (result : List JValue) : Bool × Nat :=
  match result.get? 2 with
  | some third_answer =>
    match py_float third_answer with
    | some q =>
      if py_abs (q - 0.485782) ≤ 0.001 then (true, total_score + 4)
      else (false, total_score)
    | none => (false, total_score)
  | none => (false, total_score)

/-- Test 5 (lines 119-169): the plot check.  A non-string `result[3]`
raises on `.startswith` and the outer `except` scores the whole check 0;
otherwise 2 points per satisfied sub-criterion are added and the check
"passes" only when all four hold. -/
def evaluate_plot (total_score : Nat) (result : List JValue) : Bool × Nat :=
  match result.get? 3 with
  | some (JValue.str plot_data) =>
    ((criteria_met plot_data.data).all id, total_score + points_earned plot_data.data)
  | _ => (false, total_score)

/-- The element list of a gated submission.  `run_evaluation` only reads
it after `evaluate_structure` succeeded, which forces the `arr` case. -/
def as_list (v : JValue) : List JValue :=
  match v with
  | .arr xs => xs
  | _ => []

/-- The dict literal returned on structural failure (lines 198-204): both
failure shapes (non-list and wrong length) produce this same value. -/
def structure_failure_report : Report :=
  { success := false
    score := 0
    max_score := 20
    percentage := 0
    details := "Failed structural validation - not a 4-element array"
    response := none }

/-- The dict literal returned when the fetched result is Python `None`
(lines 178-185): `response.json()` yields `None` exactly when the
response body decodes to JSON `null`, and `run_evaluation` intercepts it
before the structural gate is ever reached. -/
def api_failure_report : Report :=
  { success := false
    score := 0
    max_score := 20
    percentage := 0
    details := "API request failed"
    response := none }

/-- Lines 196-235 of `run_evaluation`: the structural gate followed, on
success, by the four content checks, through which the accumulator
`self.total_score` is threaded (the runner discards the checks' boolean
results).  This code is reached only for a decoded response that is not
Python `None`; see `run_evaluation`. -/
def gate_and_checks (total_score : Nat) (result : JValue) : Report × Nat :=
  if evaluate_structure result then
    let xs := as_list result
    let t1 := (evaluate_first_answer total_score xs).2
    let t2 := (evaluate_second_answer t1 xs).2
    let t3 := (evaluate_third_answer t2 xs).2
    let t4 := (evaluate_plot t3 xs).2
    ({ success := true
       score := t4
       max_score := 20
       percentage := (t4 : ℚ) / 20 * 100
       details := "Evaluation completed successfully"
       response := some result }, t4)
  else (structure_failure_report, total_score)

/-- Lines 171-235 of `run_evaluation` on an already-fetched decoded
response (the network fetch itself is outside the model).  A decoded
JSON `null` is Python `None`: `test_api_response` returns it unchanged
and the `result is None` test at line 178 answers with the fixed
"API request failed" report, so `null` never reaches the structural
gate; every other decoded value goes through the gate and the content
checks. -/
def run_evaluation (total_score : Nat) (result : JValue) : Report × Nat :=
  match result with
  | .null => (api_failure_report, total_score)
  | result => gate_and_checks total_score result

/-- Points test 2 adds to the accumulator, as a function of the
submission alone. -/
def first_answer_points (result : List JValue) : Nat :=
  match result.get? 0 with
  | some v => if py_eq_one v then 4 else 0
  | none => 0

/-- Points test 3 adds to the accumulator. -/
def second_answer_points (result : List JValue) : Nat :=
  match result.get? 1 with
  | some v => if contains_titanic (py_str v) then 4 else 0
  | none => 0

/-- Points test 4 adds to the accumulator. -/
def third_answer_points (result : List JValue) : Nat :=
  match result.get? 2 with
  | some v =>
    match py_float v with
    | some q => if py_abs (q - 0.485782) ≤ 0.001 then 4 else 0
    | none => 0
  | none => 0

/-- Points test 5 adds to the accumulator. -/
def plot_points (result : List JValue) : Nat :=
  match result.get? 3 with
  | some (JValue.str plot_data) => points_earned plot_data.data
  | _ => 0

theorem evaluate_first_answer_snd (t : Nat) (l : List JValue) :
    (evaluate_first_answer t l).2 = t + first_answer_points l := by
  unfold evaluate_first_answer first_answer_points
  cases l.get? 0 with
  | none => simp
  | some v => by_cases h : py_eq_one v <;> simp [h]

theorem evaluate_second_answer_snd (t : Nat) (l : List JValue) :
    (evaluate_second_answer t l).2 = t + second_answer_points l := by
  unfold evaluate_second_answer second_answer_points
  cases l.get? 1 with
  | none => simp
  | some v => by_cases h : contains_titanic (py_str v) <;> simp [h]

theorem evaluate_third_answer_snd (t : Nat) (l : List JValue) :
    (evaluate_third_answer t l).2 = t + third_answer_points l := by
  unfold evaluate_third_answer third_answer_points
  cases l.get? 2 with
  | none => simp
  | some v =>
    cases h : py_float v with
    | none => simp [h]
    | some q =>
      by_cases hq : py_abs (q - 0.485782) ≤ 0.001 <;> simp [h, hq]

theorem evaluate_plot_snd (t : Nat) (l : List JValue) :
    (evaluate_plot t l).2 = t + plot_points l := by
  unfold evaluate_plot plot_points
  cases h : l.get? 3 with
  | none => simp
  | some v => cases v <;> simp

/-- Total points one pass of the four content checks adds. -/
def content_points (l : List JValue) : Nat :=
  first_answer_points l + second_answer_points l + third_answer_points l + plot_points l

theorem run_evaluation_not_null (t : Nat) (v : JValue) (h : v ≠ JValue.null) :
    run_evaluation t v = gate_and_checks t v := by
  cases v <;> first | exact absurd rfl h | rfl

/-- Backbone: on a structurally valid submission (necessarily a 4-element
list, hence not `null`) the runner returns the accumulator plus one pass
of content points, both as the report's score and as the new accumulator
value. -/
theorem run_evaluation_pass (t : Nat) (v : JValue)
    (h : evaluate_structure v = true) :
    run_evaluation t v =
      ({ success := true
         score := t + content_points (as_list v)
         max_score := 20
         percentage := ((t + content_points (as_list v) : Nat) : ℚ) / 20 * 100
         details := "Evaluation completed successfully"
         response := some v }, t + content_points (as_list v)) := by
  have hnn : v ≠ JValue.null := fun hv => absurd (hv ▸ h) (by decide)
  rw [run_evaluation_not_null t v hnn]
  unfold gate_and_checks
  rw [h]
  simp only [if_true, evaluate_first_answer_snd, evaluate_second_answer_snd,
    evaluate_third_answer_snd, evaluate_plot_snd, content_points]
  ring_nf

/-- Backbone: on a non-`None` submission that fails the structural gate,
the runner returns the fixed structural-failure report and leaves the
accumulator untouched. -/
theorem run_evaluation_fail (t : Nat) (v : JValue)
    (h : evaluate_structure v = false) (hnn : v ≠ JValue.null) :
    run_evaluation t v = (structure_failure_report, t) := by
  rw [run_evaluation_not_null t v hnn]
  unfold gate_and_checks
  rw [h]
  simp

theorem split_on_aux_ne_nil (sep : List Char) (fuel : Nat) (l : List Char) :
    split_on_aux sep fuel l ≠ [] := by
  cases fuel with
  | zero => cases l <;> simp [split_on_aux]
  | succ n =>
    cases l with
    | nil => simp [split_on_aux]
    | cons c rest =>
      unfold split_on_aux
      split
      · simp
      · split <;> simp

theorem contains_sub_nil_of_ne (sep : List Char) (hsep : sep ≠ []) :
    contains_sub sep [] = false := by
  cases sep with
  | nil => exact absurd rfl hsep
  | cons s ss => rfl

theorem split_on_aux_singleton (sep : List Char) (hsep : sep ≠ []) :
    ∀ fuel l, l.length ≤ fuel → ∀ a, split_on_aux sep fuel l = [a] →
      a = l ∧ contains_sub sep l = false := by
  intro fuel
  induction fuel with
  | zero =>
    intro l hl a h
    have hnil : l = [] := List.eq_nil_of_length_eq_zero (Nat.le_zero.mp hl)
    subst hnil
    simp only [split_on_aux] at h
    have : a = [] := by simpa using h.symm
    exact ⟨this, contains_sub_nil_of_ne sep hsep⟩
  | succ n ih =>
    intro l hl a h
    cases l with
    | nil =>
      simp only [split_on_aux] at h
      have : a = [] := by simpa using h.symm
      exact ⟨this, contains_sub_nil_of_ne sep hsep⟩
    | cons c rest =>
      unfold split_on_aux at h
      by_cases hp : sep.isPrefixOf (c :: rest)
      · rw [if_pos hp] at h
        cases h' : split_on_aux sep n (List.drop sep.length (c :: rest)) with
        | nil => exact absurd h' (split_on_aux_ne_nil sep n _)
        | cons x xs => rw [h'] at h; simp at h
      · rw [if_neg hp] at h
        cases h' : split_on_aux sep n rest with
        | nil => exact absurd h' (split_on_aux_ne_nil sep n rest)
        | cons hh tt =>
          rw [h'] at h
          injection h with h1 h2
          obtain ⟨hhl, hcontains⟩ :=
            ih rest (by simpa using Nat.le_of_succ_le_succ hl) hh (h2 ▸ h')
          subst hhl
          refine ⟨h1.symm, ?_⟩
          have hps : sep.isPrefixOf (c :: hh) = false := by
            rwa [Bool.not_eq_true] at hp
          simp [contains_sub, hps, hcontains]

theorem split_on_aux_pair (sep : List Char) (hsep : sep ≠ []) :
    ∀ fuel l a b, l.length ≤ fuel → split_on_aux sep fuel l = [a, b] →
      after_first sep l = some b ∧ contains_sub sep l = true := by
  intro fuel
  induction fuel with
  | zero =>
    intro l a b hl h
    have hnil : l = [] := List.eq_nil_of_length_eq_zero (Nat.le_zero.mp hl)
    subst hnil
    simp only [split_on_aux] at h
    simp at h
  | succ n ih =>
    intro l a b hl h
    cases l with
    | nil =>
      simp only [split_on_aux] at h
      simp at h
    | cons c rest =>
      unfold split_on_aux at h
      by_cases hp : sep.isPrefixOf (c :: rest)
      · rw [if_pos hp] at h
        injection h with h1 h2
        have hlen : (List.drop sep.length (c :: rest)).length ≤ n := by
          rw [List.length_drop]
          have hsl : 0 < sep.length := List.length_pos.mpr hsep
          have : (c :: rest).length ≤ n + 1 := hl
          simp only [List.length_cons] at this
          omega
        obtain ⟨hb, -⟩ := split_on_aux_singleton sep hsep n _ hlen b h2
        constructor
        · unfold after_first
          rw [if_pos hp, hb]
        · simp [contains_sub, hp]
      · rw [if_neg hp] at h
        cases h' : split_on_aux sep n rest with
        | nil => exact absurd h' (split_on_aux_ne_nil sep n rest)
        | cons hh tt =>
          rw [h'] at h
          injection h with h1 h2
          obtain ⟨haf, hcon⟩ :=
            ih rest hh b (by simpa using Nat.le_of_succ_le_succ hl) (h2 ▸ h')
          constructor
          · unfold after_first
            rw [if_neg hp]
            exact haf
          · have hps : sep.isPrefixOf (c :: rest) = false := by
              rwa [Bool.not_eq_true] at hp
            simp [contains_sub, hps, hcon]

/-- When Python's split of the plot string on `'base64,'` has exactly two
segments (the marker occurs exactly once), the second segment is exactly
everything after the first occurrence of the marker. -/
theorem py_split_pair (l a b : List Char) (h : py_split marker l = [a, b]) :
    after_first marker l = some b ∧ contains_marker l = true := by
  have := split_on_aux_pair marker (by decide) l.length l a b (Nat.le_refl _) h
  exact ⟨this.1, this.2⟩

theorem utf8_len_replicate_a (n : Nat) : utf8_len (List.replicate n 'a') = n := by
  have aux : ∀ m acc, List.foldl (fun k c => k + c.utf8Size) acc (List.replicate m 'a') =
      acc + m := by
    intro m
    induction m with
    | zero => intro acc; simp
    | succ j ih =>
      intro acc
      rw [List.replicate_succ, List.foldl_cons, ih]
      have h1 : Char.utf8Size 'a' = 1 := rfl
      omega
  have := aux n 0
  simpa [utf8_len] using this

theorem first_answer_points_cases (l : List JValue) :
    first_answer_points l = 0 ∨ first_answer_points l = 4 := by
  unfold first_answer_points
  cases l.get? 0 with
  | none => simp
  | some v => by_cases h : py_eq_one v <;> simp [h]

theorem second_answer_points_cases (l : List JValue) :
    second_answer_points l = 0 ∨ second_answer_points l = 4 := by
  unfold second_answer_points
  cases l.get? 1 with
  | none => simp
  | some v => by_cases h : contains_titanic (py_str v) <;> simp [h]

theorem third_answer_points_cases (l : List JValue) :
    third_answer_points l = 0 ∨ third_answer_points l = 4 := by
  unfold third_answer_points
  cases l.get? 2 with
  | none => simp
  | some v =>
    cases h : py_float v with
    | none => simp [h]
    | some q => by_cases hq : py_abs (q - 0.485782) ≤ 0.001 <;> simp [h, hq]

theorem plot_points_structure (l : List JValue) :
    ∃ k, k ≤ 4 ∧ plot_points l = 2 * k := by
  unfold plot_points
  cases h : l.get? 3 with
  | none => exact ⟨0, by omega, by simp⟩
  | some v =>
    cases v with
    | str p =>
      refine ⟨(criteria_met p.data).countP id, ?_, ?_⟩
      · have := List.countP_le_length (p := id) (l := criteria_met p.data)
        simpa [criteria_met] using this
      · simp [points_earned]
        omega
    | null => exact ⟨0, by omega, by simp⟩
    | bool b => exact ⟨0, by omega, by simp⟩
    | int n => exact ⟨0, by omega, by simp⟩
    | float q => exact ⟨0, by omega, by simp⟩
    | arr xs => exact ⟨0, by omega, by simp⟩
    | obj kvs => exact ⟨0, by omega, by simp⟩

/-- Characterisation of Python `x == 1` on decoded JSON values: exactly
the integer `1`, the float `1.0` and the boolean `True` compare equal to
the integer literal `1`. -/
theorem py_eq_one_iff (v : JValue) :
    py_eq_one v = true ↔
      (v = JValue.int 1 ∨ v = JValue.float 1 ∨ v = JValue.bool true) := by
  cases v <;> simp [py_eq_one]

/-- C1, counterexample.  The claim says re-running the structural gate and
the four content checks on the same evaluator yields a bit-identical score
report every time.  On the submission `[1, null, null, null]` the first
run reports score 4, and a second run on the same evaluator (whose
`total_score` accumulator was left at 4) reports score 8: the reports are
not identical. -/
theorem claim_C1_counterexample :
    (run_evaluation 0 (JValue.arr [.int 1, .null, .null, .null])).1.score = 4 ∧
    (run_evaluation (run_evaluation 0 (JValue.arr [.int 1, .null, .null, .null])).2
        (JValue.arr [.int 1, .null, .null, .null])).1.score = 8 := by
  exact ⟨by decide, by decide⟩

/-- C1, amended.  Scoring is deterministic, but the `total_score`
accumulator initialised in `__init__` is never reset by `run_evaluation`,
so re-running the checks on the same evaluator accumulates: for every
structurally valid submission, the second consecutive run reports exactly
twice the score of the first; bit-identical reports are obtained only by
evaluating on a freshly constructed evaluator each time. -/
theorem claim_C1 (v : JValue) (h : evaluate_structure v = true) :
    (run_evaluation (run_evaluation 0 v).2 v).1.score =
      2 * (run_evaluation 0 v).1.score := by
  have h0 := run_evaluation_pass 0 v h
  rw [h0]
  rw [run_evaluation_pass (0 + content_points (as_list v)) v h]
  show 0 + content_points (as_list v) + content_points (as_list v) =
    2 * (0 + content_points (as_list v))
  omega

/-- C1, witness for the amended theorem at the submission
`[1, "x", null, null]`. -/
theorem claim_C1_witness :
    evaluate_structure (JValue.arr [.int 1, .str "x", .null, .null]) = true ∧
    (run_evaluation (run_evaluation 0 (JValue.arr [.int 1, .str "x", .null, .null])).2
        (JValue.arr [.int 1, .str "x", .null, .null])).1.score =
      2 * (run_evaluation 0 (JValue.arr [.int 1, .str "x", .null, .null])).1.score :=
  ⟨by decide, claim_C1 _ (by decide)⟩

/-- C3.  For every decoded JSON submission that is not a list of exactly
4 elements, the structural gate returns `False`, `run_evaluation` returns
immediately with reported score 0 and `success = false`, and no content
check runs (the accumulator is returned untouched). -/
theorem claim_C3 (v : JValue) (t : Nat)
    (h : ¬ ∃ xs, v = JValue.arr xs ∧ xs.length = 4) :
    evaluate_structure v = false ∧
    (run_evaluation t v).1.score = 0 ∧
    (run_evaluation t v).1.success = false ∧
    (run_evaluation t v).2 = t := by
  have hs : evaluate_structure v = false := by
    cases v with
    | arr xs =>
      simp only [evaluate_structure]
      cases hbe : xs.length == 4 with
      | true => exact absurd ⟨xs, rfl, by simpa using hbe⟩ h
      | false => rfl
    | null => rfl
    | bool b => rfl
    | int n => rfl
    | float q => rfl
    | str s => rfl
    | obj kvs => rfl
  by_cases hnn : v = JValue.null
  · -- a decoded `null` is Python `None`: the runner answers with the
    -- "API request failed" report, which also has score 0 and
    -- `success = false`, before any check can touch the accumulator
    subst hnn
    exact ⟨rfl, rfl, rfl, rfl⟩
  · rw [run_evaluation_fail t v hs hnn]
    exact ⟨hs, rfl, rfl, rfl⟩

/-- C3, witness at the object submission (a JSON dict), with a non-zero
starting accumulator to exhibit that the content checks never touch it. -/
theorem claim_C3_witness :
    evaluate_structure (JValue.obj []) = false ∧
    (run_evaluation 7 (JValue.obj [])).1.score = 0 ∧
    (run_evaluation 7 (JValue.obj [])).1.success = false ∧
    (run_evaluation 7 (JValue.obj [])).2 = 7 :=
  claim_C3 (JValue.obj []) 7 (fun ⟨_, hx, _⟩ => JValue.noConfusion hx)

/-- C4, counterexample.  The claim says the two structural-failure shapes
(not a sequence; a sequence of wrong length) yield different diagnostics
in the returned report.  In fact `run_evaluation` returns the very same
report value - with the fixed details string
`"Failed structural validation - not a 4-element array"` - for the
non-sequence submission `"oops"` (a JSON string, which is not a list)
and for the length-3 array `[1, 2, 3]`; the shape-specific messages of
`evaluate_structure` only go to stdout. -/
theorem claim_C4_counterexample :
    (run_evaluation 0 (JValue.str "oops")).1 =
      (run_evaluation 0 (JValue.arr [.int 1, .int 2, .int 3])).1 ∧
    (run_evaluation 0 (JValue.str "oops")).1.details =
      "Failed structural validation - not a 4-element array" := by
  exact ⟨rfl, rfl⟩

/-- C4, amended.  For every decoded submission other than `null` (a
decoded `null` is Python `None` and is answered with the distinct
"API request failed" report before the gate runs), a structural-gate
failure returns a report carrying score 0, `success = false`, and the
one fixed diagnostic string
`"Failed structural validation - not a 4-element array"`, identical for
both failure shapes; the diagnostics distinguishing "not a sequence"
from "wrong length N" are only printed, not put into the report. -/
theorem claim_C4 (v : JValue) (t : Nat) (hnn : v ≠ JValue.null)
    (h : evaluate_structure v = false) :
    (run_evaluation t v).1.score = 0 ∧
    (run_evaluation t v).1.success = false ∧
    (run_evaluation t v).1.details =
      "Failed structural validation - not a 4-element array" := by
  rw [run_evaluation_fail t v h hnn]
  exact ⟨rfl, rfl, rfl⟩

/-- C4, witness at the scalar submission `5`. -/
theorem claim_C4_witness :
    (run_evaluation 3 (JValue.int 5)).1.score = 0 ∧
    (run_evaluation 3 (JValue.int 5)).1.success = false ∧
    (run_evaluation 3 (JValue.int 5)).1.details =
      "Failed structural validation - not a 4-element array" :=
  claim_C4 (JValue.int 5) 3 (fun hx => JValue.noConfusion hx) (by decide)

/-- C7, counterexample.  The claim says Check A awards its 4 points only
when element 0 is the integer literal `1`, and that any other value earns
0.  The boolean `true` is a different JSON value from the integer `1`,
yet Python's `first_answer == 1` holds for it (`True == 1`), so Check A
adds 4 points on the submission `[true, null, null, null]`. -/
theorem claim_C7_counterexample :
    (evaluate_first_answer 0 [JValue.bool true, .null, .null, .null]).2 = 4 ∧
    JValue.bool true ≠ JValue.int 1 :=
  ⟨by decide, fun hx => JValue.noConfusion hx⟩

/-- C7, amended.  Check A awards its 4 points iff element 0 compares
equal to `1` under Python `==`, which treats numeric types uniformly:
exactly the integer `1`, the float `1.0` and the boolean `true` pass
(no tolerance: every other number, and every non-numeric value, earns 0);
the check's boolean result agrees with the points being awarded. -/
theorem claim_C7 (v : JValue) (t : Nat) (rest : List JValue) :
    ((evaluate_first_answer t (v :: rest)).2 = t + 4 ↔
      (v = JValue.int 1 ∨ v = JValue.float 1 ∨ v = JValue.bool true)) ∧
    ((evaluate_first_answer t (v :: rest)).2 = t + 4 ∨
      (evaluate_first_answer t (v :: rest)).2 = t) ∧
    ((evaluate_first_answer t (v :: rest)).1 = true ↔
      (evaluate_first_answer t (v :: rest)).2 = t + 4) := by
  have hred : evaluate_first_answer t (v :: rest) =
      if py_eq_one v then (true, t + 4) else (false, t) := rfl
  rw [hred, ← py_eq_one_iff]
  by_cases h : py_eq_one v = true
  · simp [h]
  · have h' : py_eq_one v = false := by rwa [Bool.not_eq_true] at h
    simp [h']

/-- C9.  For every submission, a single full evaluation on a freshly
constructed evaluator (accumulator 0) reports an even total score between
0 and 20: each scalar check contributes 0 or 4 and the plot check
contributes twice the number of satisfied sub-criteria (at most 4). -/
theorem claim_C9 (v : JValue) :
    (run_evaluation 0 v).1.score % 2 = 0 ∧ (run_evaluation 0 v).1.score ≤ 20 := by
  by_cases hnn : v = JValue.null
  · -- a decoded `null` is reported as "API request failed" with score 0
    subst hnn
    exact ⟨rfl, by decide⟩
  by_cases hs : evaluate_structure v = true
  · rw [run_evaluation_pass 0 v hs]
    show (0 + content_points (as_list v)) % 2 = 0 ∧ 0 + content_points (as_list v) ≤ 20
    have h1 := first_answer_points_cases (as_list v)
    have h2 := second_answer_points_cases (as_list v)
    have h3 := third_answer_points_cases (as_list v)
    obtain ⟨k, hk, hpk⟩ := plot_points_structure (as_list v)
    unfold content_points
    rcases h1 with h1 | h1 <;> rcases h2 with h2 | h2 <;> rcases h3 with h3 | h3 <;>
      omega
  · have hs' : evaluate_structure v = false := by rwa [Bool.not_eq_true] at hs
    rw [run_evaluation_fail 0 v hs' hnn]
    exact ⟨rfl, by decide⟩

/-- C10.  For the plot string `"base64,"` followed by `"!!!"`, whose
portion after the marker consists entirely of characters outside the
base64 alphabet (and which are not padding), sub-criterion 4 still awards
its 2 points: the non-strict decoder discards non-alphabet characters, so
the payload decodes successfully (to the empty byte string), and the plot
check earns 6 points (marker, size and decodability; only the
`data:image/` prefix fails). -/
theorem claim_C10 :
    can_decode ("base64,!!!".data) = true ∧
    base64_part ("base64,!!!".data) = "!!!".data ∧
    ("!!!".data.all fun c => !(is_b64_char c) && !(c == '=')) = true ∧
    points_earned ("base64,!!!".data) = 6 :=
  ⟨by decide, by decide, by decide, by decide⟩

/-- C2, counterexample.  The claim says sub-criterion 4 awards its 2
points iff the ENTIRE remainder of the string after the first `base64,`
marker decodes as base64.  On the plot string
`"base64,AAAAbase64,B"` the remainder after the first marker is
`"AAAAbase64,B"`, which does NOT decode (after discarding the comma it
has 11 data characters, not a multiple of 4), yet the code decodes only
`split('base64,')[1] = "AAAA"` and awards the 2 points. -/
theorem claim_C2_counterexample :
    contains_marker ("base64,AAAAbase64,B".data) = true ∧
    after_first marker ("base64,AAAAbase64,B".data) = some ("AAAAbase64,B".data) ∧
    b64decode_ok ("AAAAbase64,B".data) = false ∧
    can_decode ("base64,AAAAbase64,B".data) = true :=
  ⟨by decide, by decide, by decide, by decide⟩

/-- C2, amended.  Sub-criterion 4 awards its 2 points iff the marker
`base64,` is present and the segment `split('base64,')[1]` - the part of
the string strictly between the first and the second occurrence of the
marker - decodes successfully as base64.  When the marker occurs exactly
once (the split has exactly two segments), that segment IS the entire
remainder after the first occurrence, as the original claim says; when
the marker is absent, sub-criterion 4 fails. -/
theorem claim_C2 (s : List Char) :
    (contains_marker s = false → can_decode s = false) ∧
    (∀ a b, py_split marker s = [a, b] →
      base64_part s = b ∧ after_first marker s = some b ∧
      can_decode s = b64decode_ok b) := by
  constructor
  · intro h
    simp [can_decode, h]
  · intro a b hsplit
    obtain ⟨haf, hcon⟩ := py_split_pair s a b hsplit
    have hpart : base64_part s = b := by
      simp [base64_part, hsplit]
    exact ⟨hpart, haf, by simp [can_decode, hcon, hpart]⟩

/-- C2, witness: a marker-free string fails sub-criterion 4, and on
`"xbase64,AAAA"`, whose split has exactly two segments, sub-criterion 4
is decided by decoding the remainder `"AAAA"`. -/
theorem claim_C2_witness :
    can_decode ("hello".data) = false ∧
    base64_part ("xbase64,AAAA".data) = "AAAA".data ∧
    after_first marker ("xbase64,AAAA".data) = some ("AAAA".data) ∧
    can_decode ("xbase64,AAAA".data) = b64decode_ok ("AAAA".data) :=
  ⟨(claim_C2 ("hello".data)).1 (by decide),
   ((claim_C2 ("xbase64,AAAA".data)).2 ("x".data) ("AAAA".data) (by decide)).1,
   ((claim_C2 ("xbase64,AAAA".data)).2 ("x".data) ("AAAA".data) (by decide)).2.1,
   ((claim_C2 ("xbase64,AAAA".data)).2 ("x".data) ("AAAA".data) (by decide)).2.2⟩

/-- C5.  For the submission `[2, "Unknown", 0.9, d]` where `d` starts
with `data:image/`, contains the `base64,` marker, has UTF-8 byte length
under 100000 and a decodable base64 payload, the evaluation reports total
score exactly 8 of 20 with `success = true`: each scalar check awards 0
and the plot check awards 8, independently of one another. -/
theorem claim_C5 (d : String)
    (h1 : is_data_uri d.data = true)
    (h2 : contains_marker d.data = true)
    (h3 : utf8_len d.data < 100000)
    (h4 : b64decode_ok (base64_part d.data) = true) :
    (run_evaluation 0
      (JValue.arr [.int 2, .str "Unknown", .float 0.9, .str d])).1.score = 8 ∧
    (run_evaluation 0
      (JValue.arr [.int 2, .str "Unknown", .float 0.9, .str d])).1.max_score = 20 ∧
    (run_evaluation 0
      (JValue.arr [.int 2, .str "Unknown", .float 0.9, .str d])).1.success = true ∧
    first_answer_points [.int 2, .str "Unknown", .float 0.9, .str d] = 0 ∧
    second_answer_points [.int 2, .str "Unknown", .float 0.9, .str d] = 0 ∧
    third_answer_points [.int 2, .str "Unknown", .float 0.9, .str d] = 0 ∧
    plot_points [.int 2, .str "Unknown", .float 0.9, .str d] = 8 := by
  have e1 : first_answer_points
      [JValue.int 2, JValue.str "Unknown", JValue.float 0.9, JValue.str d] = 0 := rfl
  have e2 : second_answer_points
      [JValue.int 2, JValue.str "Unknown", JValue.float 0.9, JValue.str d] = 0 := rfl
  have e3 : third_answer_points
      [JValue.int 2, JValue.str "Unknown", JValue.float 0.9, JValue.str d] = 0 := by
    show (if py_abs ((0.9 : ℚ) - 0.485782) ≤ 0.001 then 4 else 0) = 0
    unfold py_abs
    split_ifs with ha hb <;> first | rfl | norm_num at *
  have e4 : plot_points
      [JValue.int 2, JValue.str "Unknown", JValue.float 0.9, JValue.str d] = 8 := by
    show points_earned d.data = 8
    have hso : size_ok d.data = true := by simp [size_ok, h3]
    have hcd : can_decode d.data = true := by simp [can_decode, h2, h4]
    simp [points_earned, criteria_met, h1, h2, hso, hcd]
  have hcp : content_points
      [JValue.int 2, JValue.str "Unknown", JValue.float 0.9, JValue.str d] = 8 := by
    unfold content_points
    rw [e1, e2, e3, e4]
  rw [run_evaluation_pass 0
    (JValue.arr [.int 2, .str "Unknown", .float 0.9, .str d]) rfl]
  refine ⟨?_, rfl, rfl, e1, e2, e3, e4⟩
  show 0 + content_points
    [JValue.int 2, JValue.str "Unknown", JValue.float 0.9, JValue.str d] = 8
  rw [hcp]

/-- C5, witness at the concrete plot string
`"data:image/png;base64,AAAA"`. -/
theorem claim_C5_witness :
    (run_evaluation 0 (JValue.arr [.int 2, .str "Unknown", .float 0.9,
      .str "data:image/png;base64,AAAA"])).1.score = 8 ∧
    (run_evaluation 0 (JValue.arr [.int 2, .str "Unknown", .float 0.9,
      .str "data:image/png;base64,AAAA"])).1.success = true :=
  ⟨(claim_C5 "data:image/png;base64,AAAA"
      (by decide) (by decide) (by decide) (by decide)).1,
   (claim_C5 "data:image/png;base64,AAAA"
      (by decide) (by decide) (by decide) (by decide)).2.2.1⟩

/-- C6.  Plot sub-criterion 3 awards its 2 points iff the UTF-8 byte
length of the plot string is strictly below 100000: a 99999-byte string
passes the size sub-criterion and a 100000-byte string fails it, and
passing (resp. failing) the size sub-criterion guarantees at least 2
(resp. at most 6) of the 8 plot points. -/
theorem claim_C6 :
    (∀ chars : List Char, size_ok chars = decide (utf8_len chars < 100000)) ∧
    size_ok (List.replicate 99999 'a') = true ∧
    size_ok (List.replicate 100000 'a') = false ∧
    utf8_len (List.replicate 99999 'a') = 99999 ∧
    utf8_len (List.replicate 100000 'a') = 100000 ∧
    (∀ chars, size_ok chars = true → 2 ≤ points_earned chars) ∧
    (∀ chars, size_ok chars = false → points_earned chars ≤ 6) := by
  refine ⟨fun _ => rfl, ?_, ?_, utf8_len_replicate_a _, utf8_len_replicate_a _, ?_, ?_⟩
  · unfold size_ok
    rw [utf8_len_replicate_a]
    decide
  · unfold size_ok
    rw [utf8_len_replicate_a]
    decide
  · intro chars h
    simp only [points_earned, criteria_met, h]
    cases is_data_uri chars <;> cases contains_marker chars <;>
      cases can_decode chars <;> decide
  · intro chars h
    simp only [points_earned, criteria_met, h]
    cases is_data_uri chars <;> cases contains_marker chars <;>
      cases can_decode chars <;> decide

/-- C6, witness: the 1-byte string `"x"` passes the size sub-criterion
and earns its 2 points; the 100000-byte string of `a`s fails it and is
capped at 6 plot points. -/
theorem claim_C6_witness :
    2 ≤ points_earned ("x".data) ∧
    points_earned (List.replicate 100000 'a') ≤ 6 :=
  ⟨claim_C6.2.2.2.2.2.1 ("x".data) (by decide),
   claim_C6.2.2.2.2.2.2 (List.replicate 100000 'a')
     (by unfold size_ok; rw [utf8_len_replicate_a]; decide)⟩

/-- C8, counterexample.  The claim says every per-check failure kind is
converted into the report's `details` string.  On
`["x", 0, "abc", 7]` three checks fail (a wrong first answer, a
float-coercion failure on `"abc"`, and a non-string plot raising on
`.startswith`) and the reported score is 0, yet the report's details is
the fixed success text `"Evaluation completed successfully"` - identical
to the details for the all-passing run on
`[1, "titanic", null, 7]`'s report - so no failure is recorded there. -/
theorem claim_C8_counterexample :
    (run_evaluation 0 (JValue.arr [.str "x", .int 0, .str "abc", .int 7])).1.score = 0 ∧
    (run_evaluation 0 (JValue.arr [.str "x", .int 0, .str "abc", .int 7])).1.details =
      "Evaluation completed successfully" ∧
    (run_evaluation 0 (JValue.arr [.int 1, .str "titanic", .null, .int 7])).1.details =
      (run_evaluation 0 (JValue.arr [.str "x", .int 0, .str "abc", .int 7])).1.details :=
  ⟨by decide, rfl, rfl⟩

/-- C8, amended.  For every 4-element submission, no exception escapes
the evaluation and each check contributes its points independently of the
other elements: the report is total, its score is the starting
accumulator plus the sum of four per-check contributions, each determined
by that check's own element alone (a failing check contributes 0 without
affecting the others); failures are reflected only in the score and in
printed output, while the report's `details` is the fixed success text
whenever the structural gate passes. -/
theorem claim_C8 (t : Nat) (a b c d : JValue) :
    run_evaluation t (JValue.arr [a, b, c, d]) =
      ({ success := true
         score := t + content_points [a, b, c, d]
         max_score := 20
         percentage := ((t + content_points [a, b, c, d] : Nat) : ℚ) / 20 * 100
         details := "Evaluation completed successfully"
         response := some (JValue.arr [a, b, c, d]) }, t + content_points [a, b, c, d]) ∧
    content_points [a, b, c, d] =
      first_answer_points [a, b, c, d] + second_answer_points [a, b, c, d] +
        third_answer_points [a, b, c, d] + plot_points [a, b, c, d] ∧
    first_answer_points [a, b, c, d] = (if py_eq_one a then 4 else 0) ∧
    second_answer_points [a, b, c, d] = (if contains_titanic (py_str b) then 4 else 0) ∧
    third_answer_points [a, b, c, d] =
      (match py_float c with
        | some q => if py_abs (q - 0.485782) ≤ 0.001 then 4 else 0
        | none => 0) ∧
    plot_points [a, b, c, d] =
      (match d with
        | JValue.str p => points_earned p.data
        | _ => 0) := by
  refine ⟨run_evaluation_pass t _ rfl, rfl, rfl, rfl, ?_, ?_⟩
  · cases c <;> rfl
  · cases d <;> rfl
